import Mathlib

/-!
Verification of the Outfit-Model repository's core: the pairwise
compatibility cache (`src/cache.py`), the item database's in-memory
caches (`src/item_database.py`), and the outfit generator
(`src/outfit_generator.py`).

The embedding is shallow and executable.  Item ids are `Nat` (the SQLite
schema declares `id INTEGER PRIMARY KEY`), categories are `String`,
feature vectors are `List Rat` (opaque to this core), and compatibility
scores are `Rat`.  The external compatibility model
(`predict_compatibility`) is a parameter of type `Scorer`; it may raise,
which is modelled by `Except Unit Rat`.  Real time enters only through
the Redis TTL and the per-candidate deadline; it is modelled by an
explicit `now : Nat` clock argument (seconds) and a `timed_out` oracle
saying which candidates' scoring tasks miss their deadline.
-/

namespace OutfitModel

/-- An item as held by `ItemDatabase.items_cache`: a dict with keys
`id`, `category`, `features`. -/
structure Item where
  id : Nat
  category : String
  features : List Rat
deriving DecidableEq, Repr

/-- The external scorer `compatibility_model.predict_compatibility`:
takes the two feature vectors and either returns a score or raises. -/
def Scorer : Type := List Rat → List Rat → Except Unit Rat

/-- Python's `str.lower()`: lowercase every character.  (Lean's own
`String.toLower` is extensionally the same map but is defined through
`String.mapAux`, which the kernel cannot evaluate; this direct
character-list form keeps the embedding executable.) -/
def strLower (s : String) : String := ⟨s.data.map Char.toLower⟩

/-- Generic association-list lookup, the embedding of Python
`dict.get(key)` (first binding wins; `set` below keeps keys unique). -/
def alookup {α β : Type} [DecidableEq α] : List (α × β) → α → Option β
  | [], _ => none
  | (k, v) :: rest, q => if k = q then some v else alookup rest q

/-- Python `dict[key] = value`: overwrite the binding if the key is
present, else append it. -/
def aset {α β : Type} [DecidableEq α] : List (α × β) → α → β → List (α × β)
  | [], k, v => [(k, v)]
  | (k', v') :: rest, k, v =>
      if k' = k then (k, v) :: rest else (k', v') :: aset rest k v

/-! ### `src/cache.py` — `PrecomputedCompatibilityCache` -/

/-- `PrecomputedCompatibilityCache._get_cache_key`: the canonical cache
key for a pair of item ids, `"compat:{a}:{b}"` with the smaller id
first. -/
def get_cache_key (item1_id item2_id : Nat) : String :=
  if item1_id < item2_id then
    "compat:" ++ toString item1_id ++ ":" ++ toString item2_id
  else
    "compat:" ++ toString item2_id ++ ":" ++ toString item1_id

/-- State of a `PrecomputedCompatibilityCache`.  The Redis backend
stores each value together with its absolute expiry instant
(`setex ... 3600` sets expiry `now + 3600`); Redis itself drops expired
keys, which `get_compatibility` models by checking the instant.  The
in-memory backend is a plain dict guarded with a lock; the pure
embedding needs no lock. -/
structure CacheState where
  use_redis : Bool
  redis_store : List (String × (Rat × Nat))
  memory_cache : List (String × Rat)
deriving DecidableEq, Repr

/-- A freshly constructed in-memory cache (`use_redis=False`). -/
def memCacheInit : CacheState := ⟨false, [], []⟩

/-- A freshly constructed Redis-backed cache (connection succeeded). -/
def redisCacheInit : CacheState := ⟨true, [], []⟩

/-- `PrecomputedCompatibilityCache.get_compatibility`: canonicalize the
pair; on Redis, return the stored value if its key has not expired; on
the memory dict, `memory_cache.get(key)` (no TTL in the source). -/
def get_compatibility (c : CacheState) (item1_id item2_id : Nat) (now : Nat) : Option Rat :=
  let key := get_cache_key item1_id item2_id
  if c.use_redis then
    match alookup c.redis_store key with
    | some (v, expiry) => if now < expiry then some v else none
    | none => none
  else
    alookup c.memory_cache key

/-- `PrecomputedCompatibilityCache.set_compatibility`: canonicalize the
pair; on Redis, `setex(key, 3600, score)` (expiry one hour from now); on
the memory dict, `memory_cache[key] = score`. -/
def set_compatibility (c : CacheState) (item1_id item2_id : Nat) (score : Rat) (now : Nat) : CacheState :=
  let key := get_cache_key item1_id item2_id
  if c.use_redis then
    { c with redis_store := aset c.redis_store key (score, now + 3600) }
  else
    { c with memory_cache := aset c.memory_cache key score }

/-! ### `src/item_database.py` — `ItemDatabase` -/

/-- The in-memory caches of `ItemDatabase`: `items_cache` maps id to
item, `category_cache` maps each stored category label (as stored, not
lowercased) to its items in insertion order. -/
structure ItemDatabase where
  items_cache : List (Nat × Item)
  category_cache : List (String × List Item)
deriving DecidableEq, Repr

/-- A row of the `items` table: `(id, category, features)`. -/
def Row : Type := Nat × String × List Rat

/-- The body of the `_load_cache` row loop for `category_cache`:
`if category not in cache: cache[category] = []` then
`cache[category].append(item)`. -/
def addToCategory : List (String × List Item) → String → Item → List (String × List Item)
  | [], cat, it => [(cat, [it])]
  | (c, its) :: rest, cat, it =>
      if c = cat then (c, its ++ [it]) :: rest
      else (c, its) :: addToCategory rest cat it

/-- One iteration of the `_load_cache` row loop. -/
def load_cache_step (db : ItemDatabase) (row : Row) : ItemDatabase :=
  let item : Item := ⟨row.1, row.2.1, row.2.2⟩
  { items_cache := aset db.items_cache row.1 item
    category_cache := addToCategory db.category_cache row.2.1 item }

/-- `ItemDatabase._load_cache`: clear both caches, then fill them from
the table rows in order. -/
def load_cache (rows : List Row) : ItemDatabase :=
  rows.foldl load_cache_step ⟨[], []⟩

/-- `ItemDatabase.get_item`: `items_cache.get(item_id)`. -/
def get_item (db : ItemDatabase) (item_id : Nat) : Option Item :=
  alookup db.items_cache item_id

/-- `ItemDatabase.get_items_by_category`:
`category_cache.get(category.lower(), [])[:limit]`. -/
def get_items_by_category (db : ItemDatabase) (category : String) (limit : Nat) : List Item :=
  ((alookup db.category_cache (strLower category)).getD []).take limit

/-! ### `src/outfit_generator.py` — `FastOutfitGenerator` -/

/-- The static `outfit_templates` table of `FastOutfitGenerator`. -/
def outfit_templates : List (String × List String) :=
  [ ("blazer", ["shirt", "pants", "shoes"])
  , ("blouse", ["pants", "shoes"])
  , ("body", ["shoes"])
  , ("dress", ["shoes", "outwear"])
  , ("hat", ["top", "pants", "shoes"])
  , ("hoodie", ["pants", "shoes"])
  , ("longsleeve", ["pants", "shoes"])
  , ("outwear", ["shirt", "pants", "shoes"])
  , ("pants", ["blouse", "shoes"])
  , ("polo", ["pants", "shoes"])
  , ("shirt", ["pants", "shoes"])
  , ("shoes", ["shirt", "pants", "top"])
  , ("shorts", ["polo", "shoes"])
  , ("skirt", ["shirt", "top", "shoes"])
  , ("t-shirt", ["shorts", "shoes"])
  , ("top", ["skirt", "shoes"])
  , ("undershirt", ["shirt", "pants", "shoes"]) ]

/-- `np.mean(scores) if scores else 0.0`. -/
def listMean (xs : List Rat) : Rat :=
  if xs.isEmpty then 0 else xs.sum / (xs.length : Rat)

/-- The per-current-item loop of
`_calculate_compatibility_with_outfit`: for each outfit item, use the
cached score if present, else call the scorer and cache the result.  A
scorer exception aborts the whole per-candidate computation (`none`),
keeping the cache writes made before the failure. -/
def calcScoresLoop (scorer : Scorer) (now : Nat) (candidate : Item) :
    List Item → List Rat → CacheState → Option (List Rat) × CacheState
  | [], scores, cache => (some scores, cache)
  | current_item :: rest, scores, cache =>
      match get_compatibility cache candidate.id current_item.id now with
      | some cached_score => calcScoresLoop scorer now candidate rest (scores ++ [cached_score]) cache
      | none =>
          match scorer current_item.features candidate.features with
          | Except.error _ => (none, cache)
          | Except.ok score =>
              calcScoresLoop scorer now candidate rest (scores ++ [score])
                (set_compatibility cache candidate.id current_item.id score now)

/-- `FastOutfitGenerator._calculate_compatibility_with_outfit`: average
compatibility of `candidate` with the current outfit items, via the
cache-aside loop; `none` when the scorer raised. -/
def calculate_compatibility_with_outfit (scorer : Scorer) (now : Nat)
    (candidate : Item) (current_items : List Item) (cache : CacheState) :
    Option Rat × CacheState :=
  match calcScoresLoop scorer now candidate current_items [] cache with
  | (some scores, cache') => (some (listMean scores), cache')
  | (none, cache') => (none, cache')

/-- The result-collection loop of `_find_compatible_item_fast`:
starting from `best_item = None`, `best_score = 0`, take each
candidate's average score and keep the candidate when the score is
strictly greater than the best so far; any per-candidate failure —
a scorer exception, or the candidate's task missing its deadline
(the `timed_out` oracle) — is swallowed by `except: continue`.  The
real loop consumes futures in completion order; the embedding fixes
submission order, which leaves every claim proved below unchanged. -/
def select_best_loop (scorer : Scorer) (timed_out : Item → Bool) (now : Nat)
    (current_items : List Item) :
    List Item → CacheState → Option Item → Rat → Option Item × CacheState
  | [], cache, best_item, _ => (best_item, cache)
  | candidate :: rest, cache, best_item, best_score =>
      if timed_out candidate then
        select_best_loop scorer timed_out now current_items rest cache best_item best_score
      else
        match calculate_compatibility_with_outfit scorer now candidate current_items cache with
        | (none, cache') =>
            select_best_loop scorer timed_out now current_items rest cache' best_item best_score
        | (some avg_score, cache') =>
            if best_score < avg_score then
              select_best_loop scorer timed_out now current_items rest cache' (some candidate) avg_score
            else
              select_best_loop scorer timed_out now current_items rest cache' best_item best_score

/-- The per-candidate outcomes of one run of the result-collection
loop, in submission order, with the same cache threading as
`select_best_loop`: `none` for a candidate whose task missed its
deadline or whose scorer call raised, `some s` for a candidate whose
average score `s` was computed — the loop's notion of "completed
within the deadline". -/
def runOutcomes (scorer : Scorer) (timed_out : Item → Bool) (now : Nat)
    (current_items : List Item) : List Item → CacheState → List (Item × Option Rat)
  | [], _ => []
  | candidate :: rest, cache =>
      if timed_out candidate then
        (candidate, none) :: runOutcomes scorer timed_out now current_items rest cache
      else
        match calculate_compatibility_with_outfit scorer now candidate current_items cache with
        | (none, cache') =>
            (candidate, none) :: runOutcomes scorer timed_out now current_items rest cache'
        | (some s, cache') =>
            (candidate, some s) :: runOutcomes scorer timed_out now current_items rest cache'

/-- `FastOutfitGenerator._find_compatible_item_fast`. -/
def find_compatible_item_fast (scorer : Scorer) (timed_out : Item → Bool)
    (db : ItemDatabase) (cache : CacheState) (now : Nat)
    (current_items : List Item) (target_category : String) :
    Option Item × CacheState :=
  match current_items with
  | [] =>
      let candidates := get_items_by_category db target_category 10
      (candidates.head?, cache)
  | _ :: _ =>
      let candidates := get_items_by_category db target_category 2000
      if candidates.isEmpty then (none, cache)
      else
        let current_ids := current_items.map Item.id
        let candidates := candidates.filter (fun item => item.id ∉ current_ids)
        if candidates.isEmpty then (none, cache)
        else
          select_best_loop scorer timed_out now current_items (candidates.take 100) cache none 0

/-- The outfit dict returned by `generate_outfit_fast`. -/
structure Outfit where
  items : List Item
  item_count : Nat
deriving DecidableEq, Repr

/-- The per-required-category loop of `generate_outfit_fast`: stop once
`max_items` is reached, else look for a compatible item and append it
when one is found. -/
def genLoop (scorer : Scorer) (timed_out : Item → Bool) (db : ItemDatabase)
    (now : Nat) (max_items : Nat) :
    List String → List Item → CacheState → List Item × CacheState
  | [], outfit_items, cache => (outfit_items, cache)
  | category :: rest, outfit_items, cache =>
      if max_items ≤ outfit_items.length then (outfit_items, cache)
      else
        match find_compatible_item_fast scorer timed_out db cache now outfit_items category with
        | (some compatible_item, cache') =>
            genLoop scorer timed_out db now max_items rest (outfit_items ++ [compatible_item]) cache'
        | (none, cache') =>
            genLoop scorer timed_out db now max_items rest outfit_items cache'

/-- `FastOutfitGenerator.generate_outfit_fast`: raise `ValueError` when
the seed id is unknown; with no template for the seed's category return
just the seed; otherwise grow the outfit over the required categories. -/
def generate_outfit_fast (scorer : Scorer) (timed_out : Item → Bool)
    (db : ItemDatabase) (cache : CacheState) (now : Nat)
    (seed_item_id : Nat) (max_items : Nat) : Except String Outfit :=
  match get_item db seed_item_id with
  | none => Except.error ("Item " ++ toString seed_item_id ++ " not found")
  | some seed_item =>
      match alookup outfit_templates (strLower seed_item.category) with
      | none => Except.ok ⟨[seed_item], 1⟩
      | some template =>
          let seed_category := strLower seed_item.category
          let required_categories := template.filter (fun cat => cat ≠ seed_category)
          let outfit_items :=
            (genLoop scorer timed_out db now max_items required_categories [seed_item] cache).1
          Except.ok ⟨outfit_items, outfit_items.length⟩

/- Batteries marks rational arithmetic `@[irreducible]`; restore
definitional transparency so concrete runs of the generator evaluate
inside `rfl`/`decide` proofs below. -/
attribute [local semireducible] Rat.mul Rat.add Rat.inv Rat.sub

/-! ### Concrete fixture used by the witnesses

The scenario of the spec's testable-properties section: seed item 1 of
category `"shirt"`; category `"pants"` holds items 2 and 3; category
`"shoes"` holds item 4; the scorer favours item 3 over item 2. -/

def wRows : List Row := [(1, "shirt", [1]), (2, "pants", [2]), (3, "pants", [3]), (4, "shoes", [4])]

def wDb : ItemDatabase := load_cache wRows

def wScorer : Scorer :=
  fun _ f2 => Except.ok (if f2 = [3] then (9 : Rat)/10 else (1 : Rat)/2)

def noTimeout : Item → Bool := fun _ => false

def wOutfit : Outfit :=
  ⟨[⟨1, "shirt", [1]⟩, ⟨3, "pants", [3]⟩, ⟨4, "shoes", [4]⟩], 3⟩

/-- A scorer that returns 0 for every pair — a value the external
scorer's contract (a float in [0,1]) allows. -/
def zeroScorer : Scorer := fun _ _ => Except.ok 0

/-- A scorer that raises on every call. -/
def failScorer : Scorer := fun _ _ => Except.error ()

/-- A deadline oracle under which every candidate's task misses its
deadline. -/
def allTimeout : Item → Bool := fun _ => true

/-! ### Supporting lemmas -/

theorem alookup_aset_self {α β : Type} [DecidableEq α] (l : List (α × β)) (k : α) (v : β) :
    alookup (aset l k v) k = some v := by
  induction l with
  | nil => simp [aset, alookup]
  | cons hd tl ih =>
      obtain ⟨k', v'⟩ := hd
      by_cases h : k' = k
      · simp [aset, h, alookup]
      · simp [aset, h, alookup, ih]

theorem alookup_addToCategory (cc : List (String × List Item)) (cat : String)
    (it : Item) (c : String) :
    (alookup (addToCategory cc cat it) c).getD [] =
      (alookup cc c).getD [] ++ (if c = cat then [it] else []) := by
  induction cc with
  | nil =>
      by_cases h : cat = c
      · subst h; simp [addToCategory, alookup]
      · simp [addToCategory, alookup, h, Ne.symm h]
  | cons hd tl ih =>
      obtain ⟨c0, its⟩ := hd
      by_cases h0 : c0 = cat
      · subst h0
        by_cases h1 : c0 = c
        · subst h1; simp [addToCategory, alookup]
        · simp [addToCategory, alookup, h1, Ne.symm h1]
      · by_cases h1 : c0 = c
        · subst h1
          simp [addToCategory, alookup, h0]
        · simp [addToCategory, alookup, h0, h1, ih]

theorem load_cache_category (rows : List Row) (db : ItemDatabase) (c : String) :
    (alookup (rows.foldl load_cache_step db).category_cache c).getD [] =
      (alookup db.category_cache c).getD [] ++
        (rows.filter (fun r => r.2.1 = c)).map (fun r => (⟨r.1, r.2.1, r.2.2⟩ : Item)) := by
  induction rows generalizing db with
  | nil => simp
  | cons r rs ih =>
      simp only [List.foldl_cons, List.filter_cons]
      rw [ih]
      by_cases h : r.2.1 = c
      · simp [load_cache_step, alookup_addToCategory, h]
      · simp [load_cache_step, alookup_addToCategory, h, Ne.symm h]

/-! ### Claim theorems -/

/-- **C5.** The canonical pair key is order-independent:
`get_cache_key a b = get_cache_key b a` for all item ids, so cache get
and set with the ids in either order address the same entry. -/
theorem c5_pair_key_comm (a b : Nat) : get_cache_key a b = get_cache_key b a := by
  unfold get_cache_key
  rcases Nat.lt_trichotomy a b with h | h | h
  · rw [if_pos h, if_neg (Nat.lt_asymm h)]
  · subst h; rfl
  · rw [if_neg (Nat.lt_asymm h), if_pos h]

/-- **C6 (counterexample).** The claim asserts TTL expiry for every
backend, the in-memory one included.  On the in-memory backend, an
entry written at time 0 is still returned at time 4000, past the
one-hour TTL (`0 + 3600 < 4000`): in-memory entries never expire. -/
theorem c6_memory_no_expiry_cex :
    (0 : Nat) + 3600 < 4000 ∧
      get_compatibility (set_compatibility memCacheInit 1 2 (1/2) 0) 1 2 4000 = some (1/2) := by
  constructor
  · decide
  · rfl

/-- **C6 (amended).** After `set(a,b,s)` at time `now`, `get(a,b)`
returns `s` before TTL expiry on both backends; once the entry is older
than its TTL, the Redis backend returns absent, but the in-memory
backend still returns `s` — it has no expiry. -/
theorem c6_cache_roundtrip_and_ttl (c : CacheState) (a b : Nat) (s : Rat) (now t : Nat) :
    (c.use_redis = false → get_compatibility (set_compatibility c a b s now) a b t = some s) ∧
    (c.use_redis = true →
      (t < now + 3600 → get_compatibility (set_compatibility c a b s now) a b t = some s) ∧
      (now + 3600 ≤ t → get_compatibility (set_compatibility c a b s now) a b t = none)) := by
  constructor
  · intro h
    simp [get_compatibility, set_compatibility, h, alookup_aset_self]
  · intro h
    constructor
    · intro ht
      simp [get_compatibility, set_compatibility, h, alookup_aset_self, ht]
    · intro ht
      simp [get_compatibility, set_compatibility, h, alookup_aset_self, Nat.not_lt.mpr ht]

/-- **C6 (witness).** A concrete run of `c6_cache_roundtrip_and_ttl`
on both backends at times 10 (inside TTL) and 3600 (expired). -/
theorem c6_cache_roundtrip_and_ttl_witness :
    (get_compatibility (set_compatibility memCacheInit 1 2 (3/4) 0) 1 2 10 = some (3/4)) ∧
    (get_compatibility (set_compatibility redisCacheInit 1 2 (3/4) 0) 1 2 10 = some (3/4)) ∧
    (get_compatibility (set_compatibility redisCacheInit 1 2 (3/4) 0) 1 2 3600 = none) :=
  ⟨(c6_cache_roundtrip_and_ttl memCacheInit 1 2 (3/4) 0 10).1 rfl,
   ((c6_cache_roundtrip_and_ttl redisCacheInit 1 2 (3/4) 0 10).2 rfl).1 (by decide),
   ((c6_cache_roundtrip_and_ttl redisCacheInit 1 2 (3/4) 0 3600).2 rfl).2 (by decide)⟩

/-- The category loop only appends, so the first outfit item (the seed)
stays first. -/
theorem genLoop_head (scorer : Scorer) (timed_out : Item → Bool) (db : ItemDatabase)
    (now max_items : Nat) (cats : List String) (items : List Item) (cache : CacheState)
    (x : Item) (h : items.head? = some x) :
    (genLoop scorer timed_out db now max_items cats items cache).1.head? = some x := by
  induction cats generalizing items cache with
  | nil => simpa [genLoop] using h
  | cons cat rest ih =>
      rw [genLoop]
      by_cases hlen : max_items ≤ items.length
      · simpa [hlen] using h
      · simp only [hlen, if_false]
        cases hfind : find_compatible_item_fast scorer timed_out db cache now items cat with
        | mk found cache' =>
            cases found with
            | none => exact ih items cache' h
            | some it =>
                apply ih
                cases items with
                | nil => simp at h
                | cons y ys => simpa using h

/-- **C8.** When the seed item's category has no entry in
`outfit_templates`, `generate_outfit_fast` returns a normal result
consisting of exactly the seed item with `item_count = 1`. -/
theorem c8_no_template_returns_seed (scorer : Scorer) (timed_out : Item → Bool)
    (db : ItemDatabase) (cache : CacheState) (now seed_item_id max_items : Nat)
    (seed_item : Item) (hget : get_item db seed_item_id = some seed_item)
    (htpl : alookup outfit_templates (strLower seed_item.category) = none) :
    generate_outfit_fast scorer timed_out db cache now seed_item_id max_items =
      Except.ok ⟨[seed_item], 1⟩ := by
  simp only [generate_outfit_fast, hget, htpl]

/-- **C8 (witness).** A database whose only item has category
`"Sweater"`, which has no template entry: the generated outfit is
exactly the seed, count 1. -/
theorem c8_no_template_returns_seed_witness :
    generate_outfit_fast (fun _ _ => Except.ok 1) (fun _ => false)
      (load_cache [(7, "Sweater", [1])]) memCacheInit 0 7 4 =
      Except.ok ⟨[⟨7, "Sweater", [1]⟩], 1⟩ :=
  c8_no_template_returns_seed (fun _ _ => Except.ok 1) (fun _ => false)
    (load_cache [(7, "Sweater", [1])]) memCacheInit 0 7 4 ⟨7, "Sweater", [1]⟩ rfl rfl

/-- **C10.** Every successful `generate_outfit_fast` result has
`item_count` equal to the length of its item list, and the seed item
(the one looked up from the database) is the first list element. -/
theorem c10_count_and_seed_first (scorer : Scorer) (timed_out : Item → Bool)
    (db : ItemDatabase) (cache : CacheState) (now seed_item_id max_items : Nat)
    (outfit : Outfit)
    (h : generate_outfit_fast scorer timed_out db cache now seed_item_id max_items =
      Except.ok outfit) :
    outfit.item_count = outfit.items.length ∧
      outfit.items.head? = get_item db seed_item_id := by
  cases hget : get_item db seed_item_id with
  | none =>
      simp only [generate_outfit_fast, hget] at h
      exact absurd h (by simp)
  | some seed_item =>
      simp only [generate_outfit_fast, hget] at h
      cases htpl : alookup outfit_templates (strLower seed_item.category) with
      | none =>
          simp only [htpl] at h
          obtain rfl : Outfit.mk [seed_item] 1 = outfit := by
            simpa using h
          exact ⟨rfl, rfl⟩
      | some template =>
          simp only [htpl] at h
          obtain rfl :
              Outfit.mk
                (genLoop scorer timed_out db now max_items
                  (template.filter (fun cat => cat ≠ strLower seed_item.category))
                  [seed_item] cache).1
                (genLoop scorer timed_out db now max_items
                  (template.filter (fun cat => cat ≠ strLower seed_item.category))
                  [seed_item] cache).1.length = outfit := by
            simpa using h
          refine ⟨rfl, ?_⟩
          simpa using genLoop_head scorer timed_out db now max_items
            (template.filter (fun cat => cat ≠ strLower seed_item.category))
            [seed_item] cache seed_item rfl

/-- **C4 (counterexample).** The claim says matching is
case-insensitive even when items were stored under a label containing
uppercase letters.  With a single item stored under category `"Shirt"`,
`get_items_by_category` returns the empty list for both the query
`"Shirt"` and the query `"shirt"` — only the query is lowercased, the
stored label is not, so the stored items are never found. -/
theorem c4_uppercase_label_cex :
    get_item (load_cache [(1, "Shirt", [1])]) 1 = some ⟨1, "Shirt", [1]⟩ ∧
    get_items_by_category (load_cache [(1, "Shirt", [1])]) "Shirt" 10 = [] ∧
    get_items_by_category (load_cache [(1, "Shirt", [1])]) "shirt" 10 = [] :=
  ⟨rfl, rfl, rfl⟩

/-- **C4 (amended).** `get_items_by_category` lowercases the query only:
it returns exactly the items of the rows whose stored category label
equals the lowercased query verbatim, truncated to `limit`, in insertion
order.  Hence queries equal up to case return the same list, and items
stored under a lowercase label are matched case-insensitively, but items
stored under a label containing an uppercase letter are never
returned. -/
theorem c4_category_query_lowercased (rows : List Row) (q : String) (n : Nat) :
    get_items_by_category (load_cache rows) q n =
      ((rows.filter (fun r => r.2.1 = strLower q)).map
        (fun r => (⟨r.1, r.2.1, r.2.2⟩ : Item))).take n ∧
    ∀ q2, strLower q = strLower q2 →
      get_items_by_category (load_cache rows) q n =
        get_items_by_category (load_cache rows) q2 n := by
  constructor
  · unfold get_items_by_category load_cache
    rw [load_cache_category]
    simp [alookup]
  · intro q2 hq
    unfold get_items_by_category
    rw [hq]

/-- **C4 (witness).** Concrete run of `c4_category_query_lowercased`:
an item stored under `"pants"` is returned for the query `"PANTS"`, and
the queries `"PANTS"` and `"Pants"` agree. -/
theorem c4_category_query_lowercased_witness :
    get_items_by_category (load_cache [(1, "pants", [1]), (2, "shoes", [2])]) "PANTS" 5 =
      [⟨1, "pants", [1]⟩] ∧
    get_items_by_category (load_cache [(1, "pants", [1]), (2, "shoes", [2])]) "PANTS" 5 =
      get_items_by_category (load_cache [(1, "pants", [1]), (2, "shoes", [2])]) "Pants" 5 := by
  constructor
  · rw [(c4_category_query_lowercased [(1, "pants", [1]), (2, "shoes", [2])] "PANTS" 5).1]
    rfl
  · exact (c4_category_query_lowercased [(1, "pants", [1]), (2, "shoes", [2])] "PANTS" 5).2
      "Pants" rfl

/-- The result-collection loop either keeps the incoming best item or
returns one of the candidates it scanned. -/
theorem select_best_loop_mem (scorer : Scorer) (timed_out : Item → Bool) (now : Nat)
    (cur : List Item) (l : List Item) (cache : CacheState) (b : Option Item) (bs : Rat) :
    (select_best_loop scorer timed_out now cur l cache b bs).1 = b ∨
      ∃ c ∈ l, (select_best_loop scorer timed_out now cur l cache b bs).1 = some c := by
  induction l generalizing cache b bs with
  | nil => left; rfl
  | cons c rest ih =>
      rw [select_best_loop]
      by_cases ht : timed_out c = true
      · rw [if_pos ht]
        rcases ih cache b bs with h | ⟨c', hc', h⟩
        · left; exact h
        · right; exact ⟨c', List.mem_cons_of_mem _ hc', h⟩
      · rw [if_neg ht]
        cases hc : calculate_compatibility_with_outfit scorer now c cur cache with
        | mk res cache' =>
            cases res with
            | none =>
                dsimp only
                rcases ih cache' b bs with h | ⟨c', hc', h⟩
                · left; exact h
                · right; exact ⟨c', List.mem_cons_of_mem _ hc', h⟩
            | some s =>
                dsimp only
                by_cases hs : bs < s
                · rw [if_pos hs]
                  rcases ih cache' (some c) s with h | ⟨c', hc', h⟩
                  · right; exact ⟨c, List.mem_cons_self _ _, h⟩
                  · right; exact ⟨c', List.mem_cons_of_mem _ hc', h⟩
                · rw [if_neg hs]
                  rcases ih cache' b bs with h | ⟨c', hc', h⟩
                  · left; exact h
                  · right; exact ⟨c', List.mem_cons_of_mem _ hc', h⟩

/-- In the general case (current outfit non-empty), a selected item
never carries an id already present in the outfit: the candidate list
is filtered on ids before scoring. -/
theorem find_compatible_item_fast_new_id (scorer : Scorer) (timed_out : Item → Bool)
    (db : ItemDatabase) (cache : CacheState) (now : Nat)
    (u : Item) (cur' : List Item) (cat : String) (it : Item)
    (h : (find_compatible_item_fast scorer timed_out db cache now (u :: cur') cat).1 = some it) :
    it.id ∉ (u :: cur').map Item.id := by
  rw [find_compatible_item_fast] at h
  by_cases h1 : (get_items_by_category db cat 2000).isEmpty = true
  · rw [if_pos h1] at h; exact absurd h (by simp)
  · rw [if_neg h1] at h
    by_cases h2 : ((get_items_by_category db cat 2000).filter
        (fun item => item.id ∉ (u :: cur').map Item.id)).isEmpty = true
    · rw [if_pos h2] at h; exact absurd h (by simp)
    · rw [if_neg h2] at h
      rcases select_best_loop_mem scorer timed_out now (u :: cur')
          (((get_items_by_category db cat 2000).filter
            (fun item => item.id ∉ (u :: cur').map Item.id)).take 100) cache none 0 with
        hmem | ⟨c, hcmem, hmem⟩
      · rw [h] at hmem; exact absurd hmem (by simp)
      · rw [h] at hmem
        obtain rfl : it = c := by simpa using hmem
        have hcf := List.mem_of_mem_take hcmem
        have := (List.mem_filter.mp hcf).2
        simpa using this

/-- The category loop preserves distinctness of the outfit's item ids:
each appended item's id is new by
`find_compatible_item_fast_new_id`. -/
theorem genLoop_nodup (scorer : Scorer) (timed_out : Item → Bool) (db : ItemDatabase)
    (now max_items : Nat) (cats : List String) (u : Item) (cur' : List Item)
    (cache : CacheState) (h : ((u :: cur').map Item.id).Nodup) :
    ((genLoop scorer timed_out db now max_items cats (u :: cur') cache).1.map Item.id).Nodup := by
  induction cats generalizing u cur' cache with
  | nil => simpa [genLoop] using h
  | cons cat rest ih =>
      rw [genLoop]
      by_cases hlen : max_items ≤ (u :: cur').length
      · rw [if_pos hlen]; exact h
      · rw [if_neg hlen]
        cases hf : find_compatible_item_fast scorer timed_out db cache now (u :: cur') cat with
        | mk found cache' =>
            cases found with
            | none => exact ih u cur' cache' h
            | some it =>
                have hid : it.id ∉ (u :: cur').map Item.id :=
                  find_compatible_item_fast_new_id scorer timed_out db cache now u cur' cat it
                    (by rw [hf])
                have h' : ((u :: (cur' ++ [it])).map Item.id).Nodup := by
                  have : ((u :: cur') ++ [it]).map Item.id =
                      (u :: cur').map Item.id ++ [it.id] := by simp
                  have hres : (((u :: cur') ++ [it]).map Item.id).Nodup := by
                    rw [this]
                    simp only [List.nodup_append, List.nodup_cons, List.not_mem_nil,
                      List.nodup_nil, not_false_iff, true_and, and_true]
                    exact ⟨h, by simpa [List.disjoint_singleton] using hid⟩
                  simpa using hres
                exact ih u (cur' ++ [it]) cache' h'

/-- **C2.** No outfit returned by `generate_outfit_fast` contains two
items with the same id: candidates duplicating an id already in the
outfit are excluded before scoring, so the item-id list stays
duplicate-free. -/
theorem c2_no_duplicate_ids (scorer : Scorer) (timed_out : Item → Bool)
    (db : ItemDatabase) (cache : CacheState) (now seed_item_id max_items : Nat)
    (outfit : Outfit)
    (h : generate_outfit_fast scorer timed_out db cache now seed_item_id max_items =
      Except.ok outfit) :
    (outfit.items.map Item.id).Nodup := by
  cases hget : get_item db seed_item_id with
  | none =>
      simp only [generate_outfit_fast, hget] at h
      exact absurd h (by simp)
  | some seed_item =>
      simp only [generate_outfit_fast, hget] at h
      cases htpl : alookup outfit_templates (strLower seed_item.category) with
      | none =>
          simp only [htpl] at h
          obtain rfl : Outfit.mk [seed_item] 1 = outfit := by simpa using h
          simp
      | some template =>
          simp only [htpl] at h
          obtain rfl :
              Outfit.mk
                (genLoop scorer timed_out db now max_items
                  (template.filter (fun cat => cat ≠ strLower seed_item.category))
                  [seed_item] cache).1
                (genLoop scorer timed_out db now max_items
                  (template.filter (fun cat => cat ≠ strLower seed_item.category))
                  [seed_item] cache).1.length = outfit := by
            simpa using h
          exact genLoop_nodup scorer timed_out db now max_items _ seed_item [] cache (by simp)

/-- The category loop never grows the outfit past `max_items` once the
start is within the bound: the loop breaks at the bound before adding. -/
theorem genLoop_length_le_max (scorer : Scorer) (timed_out : Item → Bool)
    (db : ItemDatabase) (now max_items : Nat) (cats : List String)
    (items : List Item) (cache : CacheState) (h : items.length ≤ max_items) :
    (genLoop scorer timed_out db now max_items cats items cache).1.length ≤ max_items := by
  induction cats generalizing items cache with
  | nil => simpa [genLoop] using h
  | cons cat rest ih =>
      rw [genLoop]
      by_cases hlen : max_items ≤ items.length
      · rw [if_pos hlen]; exact h
      · rw [if_neg hlen]
        cases hf : find_compatible_item_fast scorer timed_out db cache now items cat with
        | mk found cache' =>
            cases found with
            | none => exact ih items cache' h
            | some it =>
                refine ih (items ++ [it]) cache' ?_
                simp only [List.length_append, List.length_singleton]
                omega

/-- The category loop adds at most one item per required category. -/
theorem genLoop_length_le_add (scorer : Scorer) (timed_out : Item → Bool)
    (db : ItemDatabase) (now max_items : Nat) (cats : List String)
    (items : List Item) (cache : CacheState) :
    (genLoop scorer timed_out db now max_items cats items cache).1.length ≤
      items.length + cats.length := by
  induction cats generalizing items cache with
  | nil => simp [genLoop]
  | cons cat rest ih =>
      rw [genLoop]
      by_cases hlen : max_items ≤ items.length
      · rw [if_pos hlen]; simp
      · rw [if_neg hlen]
        cases hf : find_compatible_item_fast scorer timed_out db cache now items cat with
        | mk found cache' =>
            cases found with
            | none =>
                have := ih items cache'
                simp only [List.length_cons]
                omega
            | some it =>
                have := ih (items ++ [it]) cache'
                simp only [List.length_append, List.length_singleton] at this
                simp only [List.length_cons]
                omega

/-- **C3.** For a seed present in the index and `max_items ≥ 1`, a
returned outfit has at most `max_items` items and at most one more item
than the seed category's template list. -/
theorem c3_size_bounds (scorer : Scorer) (timed_out : Item → Bool)
    (db : ItemDatabase) (cache : CacheState) (now seed_item_id max_items : Nat)
    (seed_item : Item) (hget : get_item db seed_item_id = some seed_item)
    (hmax : 1 ≤ max_items) (outfit : Outfit)
    (h : generate_outfit_fast scorer timed_out db cache now seed_item_id max_items =
      Except.ok outfit) :
    outfit.items.length ≤ max_items ∧
      outfit.items.length ≤
        1 + ((alookup outfit_templates (strLower seed_item.category)).getD []).length := by
  simp only [generate_outfit_fast, hget] at h
  cases htpl : alookup outfit_templates (strLower seed_item.category) with
  | none =>
      simp only [htpl] at h
      obtain rfl : Outfit.mk [seed_item] 1 = outfit := by simpa using h
      exact ⟨by simpa using hmax, by simp⟩
  | some template =>
      simp only [htpl] at h
      obtain rfl :
          Outfit.mk
            (genLoop scorer timed_out db now max_items
              (template.filter (fun cat => cat ≠ strLower seed_item.category))
              [seed_item] cache).1
            (genLoop scorer timed_out db now max_items
              (template.filter (fun cat => cat ≠ strLower seed_item.category))
              [seed_item] cache).1.length = outfit := by
        simpa using h
      constructor
      · exact genLoop_length_le_max scorer timed_out db now max_items _ [seed_item] cache
          (by simpa using hmax)
      · have h1 := genLoop_length_le_add scorer timed_out db now max_items
          (template.filter (fun cat => cat ≠ strLower seed_item.category)) [seed_item] cache
        have h2 : (template.filter (fun cat => cat ≠ strLower seed_item.category)).length ≤
            template.length := List.length_filter_le _ _
        simp only [List.length_singleton] at h1
        simp only [Option.getD_some]
        omega


/-- **C2 (witness).** `c2_no_duplicate_ids` applied to the fixture
generation run: ids `[1, 3, 4]` are distinct. -/
theorem c2_no_duplicate_ids_witness : (wOutfit.items.map Item.id).Nodup :=
  c2_no_duplicate_ids wScorer noTimeout wDb memCacheInit 0 1 4 wOutfit rfl

/-- **C3 (witness).** `c3_size_bounds` applied to the fixture run:
3 items, bounds `max_items = 4` and `1 + 2`. -/
theorem c3_size_bounds_witness :
    wOutfit.items.length ≤ 4 ∧
      wOutfit.items.length ≤
        1 + ((alookup outfit_templates (strLower "shirt")).getD []).length :=
  c3_size_bounds wScorer noTimeout wDb memCacheInit 0 1 4 ⟨1, "shirt", [1]⟩
    (by decide) (by decide) wOutfit rfl

/-- **C10 (witness).** `c10_count_and_seed_first` applied to the
fixture run: count 3 equals the list length and item 1 is first. -/
theorem c10_count_and_seed_first_witness :
    wOutfit.item_count = wOutfit.items.length ∧
      wOutfit.items.head? = get_item wDb 1 :=
  c10_count_and_seed_first wScorer noTimeout wDb memCacheInit 0 1 4 wOutfit rfl

/-- **C7.** `generate_outfit_fast` raises iff the seed id is absent
from the index — for every scorer (including one that always raises)
and every deadline pattern — and failures are caught at
single-candidate granularity: a candidate whose task misses its
deadline, or whose scoring raises, is simply skipped by the
result-collection loop, which continues over the remaining candidates
with the best choice unchanged. -/
theorem c7_error_isolation (scorer : Scorer) (timed_out : Item → Bool)
    (db : ItemDatabase) (cache : CacheState) (now seed_item_id max_items : Nat)
    (cur rest : List Item) (candidate : Item) (cache0 : CacheState)
    (best : Option Item) (bs : Rat) :
    ((∃ e, generate_outfit_fast scorer timed_out db cache now seed_item_id max_items =
        Except.error e) ↔ get_item db seed_item_id = none) ∧
    (timed_out candidate = true →
      select_best_loop scorer timed_out now cur (candidate :: rest) cache0 best bs =
        select_best_loop scorer timed_out now cur rest cache0 best bs) ∧
    (∀ cache1, timed_out candidate = false →
      calculate_compatibility_with_outfit scorer now candidate cur cache0 = (none, cache1) →
      select_best_loop scorer timed_out now cur (candidate :: rest) cache0 best bs =
        select_best_loop scorer timed_out now cur rest cache1 best bs) := by
  refine ⟨⟨?_, ?_⟩, ?_, ?_⟩
  · rintro ⟨e, he⟩
    cases hget : get_item db seed_item_id with
    | none => rfl
    | some seed_item =>
        simp only [generate_outfit_fast, hget] at he
        cases htpl : alookup outfit_templates (strLower seed_item.category) with
        | none => simp [htpl] at he
        | some template => simp [htpl] at he
  · intro hget
    exact ⟨"Item " ++ toString seed_item_id ++ " not found",
      by simp only [generate_outfit_fast, hget]⟩
  · intro ht
    rw [select_best_loop, if_pos ht]
  · intro cache1 ht hc
    rw [select_best_loop, if_neg (by simp [ht]), hc]

/-- **C7 (witness).** `c7_error_isolation` at concrete inputs: an
unknown seed id 99 raises even under an always-raising scorer; a
timed-out candidate and a candidate whose scoring raises are each
skipped without disturbing the loop. -/
theorem c7_error_isolation_witness :
    (∃ e, generate_outfit_fast failScorer noTimeout wDb memCacheInit 0 99 4 =
      Except.error e) ∧
    select_best_loop wScorer allTimeout 0 [⟨1, "shirt", [1]⟩]
        [⟨2, "pants", [2]⟩] memCacheInit none 0 =
      select_best_loop wScorer allTimeout 0 [⟨1, "shirt", [1]⟩] [] memCacheInit none 0 ∧
    select_best_loop failScorer noTimeout 0 [⟨1, "shirt", [1]⟩]
        [⟨2, "pants", [2]⟩] memCacheInit none 0 =
      select_best_loop failScorer noTimeout 0 [⟨1, "shirt", [1]⟩] [] memCacheInit none 0 :=
  ⟨(c7_error_isolation failScorer noTimeout wDb memCacheInit 0 99 4 [] []
      ⟨0, "", []⟩ memCacheInit none 0).1.mpr rfl,
   (c7_error_isolation wScorer allTimeout wDb memCacheInit 0 1 4 [⟨1, "shirt", [1]⟩] []
      ⟨2, "pants", [2]⟩ memCacheInit none 0).2.1 rfl,
   (c7_error_isolation failScorer noTimeout wDb memCacheInit 0 1 4 [⟨1, "shirt", [1]⟩] []
      ⟨2, "pants", [2]⟩ memCacheInit none 0).2.2 memCacheInit rfl rfl⟩

/-- Full characterization of the result-collection loop against the
run's outcome trace: either every completed average score is at most
the running best and the incoming best is kept, or some completed
candidate strictly above the running best is returned and its score
bounds every completed score. -/
theorem select_best_loop_spec (scorer : Scorer) (timed_out : Item → Bool) (now : Nat)
    (cur : List Item) (l : List Item) (cache : CacheState) (b : Option Item) (bs : Rat) :
    ((∀ p ∈ runOutcomes scorer timed_out now cur l cache, ∀ t, p.2 = some t → t ≤ bs) ∧
      (select_best_loop scorer timed_out now cur l cache b bs).1 = b) ∨
    (∃ c s, (c, some s) ∈ runOutcomes scorer timed_out now cur l cache ∧
      (select_best_loop scorer timed_out now cur l cache b bs).1 = some c ∧ bs < s ∧
      ∀ p ∈ runOutcomes scorer timed_out now cur l cache, ∀ t, p.2 = some t → t ≤ s) := by
  induction l generalizing cache b bs with
  | nil =>
      left
      exact ⟨by intro p hp; simp [runOutcomes] at hp, rfl⟩
  | cons c rest ih =>
      by_cases ht : timed_out c = true
      · rw [select_best_loop, if_pos ht, runOutcomes, if_pos ht]
        rcases ih cache b bs with ⟨hall, hres⟩ | ⟨c', s', hmem, hres, hlt, hall⟩
        · left
          refine ⟨?_, hres⟩
          intro p hp t hpt
          rcases List.mem_cons.mp hp with rfl | hp'
          · simp at hpt
          · exact hall p hp' t hpt
        · right
          refine ⟨c', s', List.mem_cons_of_mem _ hmem, hres, hlt, ?_⟩
          intro p hp t hpt
          rcases List.mem_cons.mp hp with rfl | hp'
          · simp at hpt
          · exact hall p hp' t hpt
      · rw [select_best_loop, if_neg ht, runOutcomes, if_neg ht]
        cases hc : calculate_compatibility_with_outfit scorer now c cur cache with
        | mk res cache' =>
            cases res with
            | none =>
                dsimp only
                rcases ih cache' b bs with ⟨hall, hres⟩ | ⟨c', s', hmem, hres, hlt, hall⟩
                · left
                  refine ⟨?_, hres⟩
                  intro p hp t hpt
                  rcases List.mem_cons.mp hp with rfl | hp'
                  · simp at hpt
                  · exact hall p hp' t hpt
                · right
                  refine ⟨c', s', List.mem_cons_of_mem _ hmem, hres, hlt, ?_⟩
                  intro p hp t hpt
                  rcases List.mem_cons.mp hp with rfl | hp'
                  · simp at hpt
                  · exact hall p hp' t hpt
            | some s =>
                dsimp only
                by_cases hs : bs < s
                · rw [if_pos hs]
                  rcases ih cache' (some c) s with ⟨hall, hres⟩ | ⟨c', s', hmem, hres, hlt, hall⟩
                  · right
                    refine ⟨c, s, List.mem_cons_self _ _, hres, hs, ?_⟩
                    intro p hp t hpt
                    rcases List.mem_cons.mp hp with rfl | hp'
                    · simp at hpt; subst hpt; exact le_refl _
                    · exact hall p hp' t hpt
                  · right
                    refine ⟨c', s', List.mem_cons_of_mem _ hmem, hres, lt_trans hs hlt, ?_⟩
                    intro p hp t hpt
                    rcases List.mem_cons.mp hp with rfl | hp'
                    · simp at hpt; subst hpt; exact le_of_lt hlt
                    · exact hall p hp' t hpt
                · rw [if_neg hs]
                  rcases ih cache' b bs with ⟨hall, hres⟩ | ⟨c', s', hmem, hres, hlt, hall⟩
                  · left
                    refine ⟨?_, hres⟩
                    intro p hp t hpt
                    rcases List.mem_cons.mp hp with rfl | hp'
                    · simp at hpt; subst hpt; exact not_lt.mp hs
                    · exact hall p hp' t hpt
                  · right
                    refine ⟨c', s', List.mem_cons_of_mem _ hmem, hres, hlt, ?_⟩
                    intro p hp t hpt
                    rcases List.mem_cons.mp hp with rfl | hp'
                    · simp at hpt; subst hpt
                      exact le_of_lt (lt_of_le_of_lt (not_lt.mp hs) hlt)
                    · exact hall p hp' t hpt

/-- **C1 (counterexample).** The claim says a completed candidate is
selected regardless of the numeric value of its average score, and that
absent is returned only when no candidate completes.  With a scorer
that returns 0 (a value inside the scorer's [0,1] contract), candidate
2 of category `"pants"` completes — it is not timed out and its average
score is computed as 0 — yet selection returns `none`, because the loop
starts from `best_score = 0` and only accepts strictly greater
scores. -/
theorem c1_zero_score_cex :
    noTimeout ⟨2, "pants", [2]⟩ = false ∧
    (calculate_compatibility_with_outfit zeroScorer 0 ⟨2, "pants", [2]⟩
      [⟨1, "shirt", [1]⟩] memCacheInit).1 = some 0 ∧
    (find_compatible_item_fast zeroScorer noTimeout wDb memCacheInit 0
      [⟨1, "shirt", [1]⟩] "pants").1 = none :=
  ⟨rfl, rfl, rfl⟩

/-- **C1 (amended).** General case (`currentItems` non-empty): the
selection returns absent iff every completed candidate's average score
is ≤ 0 (in particular when no candidate completes); and a returned
candidate completed with a strictly positive average score that is
greatest among all completed candidates of the working set. -/
theorem c1_selection_requires_positive_max (scorer : Scorer) (timed_out : Item → Bool)
    (db : ItemDatabase) (cache : CacheState) (now : Nat)
    (u : Item) (cur' : List Item) (cat : String) :
    ((find_compatible_item_fast scorer timed_out db cache now (u :: cur') cat).1 = none ↔
      ∀ p ∈ runOutcomes scorer timed_out now (u :: cur')
          (((get_items_by_category db cat 2000).filter
            (fun item => item.id ∉ (u :: cur').map Item.id)).take 100) cache,
        ∀ t, p.2 = some t → t ≤ 0) ∧
    ∀ it, (find_compatible_item_fast scorer timed_out db cache now (u :: cur') cat).1 =
        some it →
      ∃ s, (it, some s) ∈ runOutcomes scorer timed_out now (u :: cur')
            (((get_items_by_category db cat 2000).filter
              (fun item => item.id ∉ (u :: cur').map Item.id)).take 100) cache ∧
        0 < s ∧
        ∀ p ∈ runOutcomes scorer timed_out now (u :: cur')
            (((get_items_by_category db cat 2000).filter
              (fun item => item.id ∉ (u :: cur').map Item.id)).take 100) cache,
          ∀ t, p.2 = some t → t ≤ s := by
  rw [find_compatible_item_fast]
  by_cases h1 : (get_items_by_category db cat 2000).isEmpty = true
  · rw [if_pos h1]
    have hnil : get_items_by_category db cat 2000 = [] := by
      simpa using h1
    constructor
    · simp [hnil, runOutcomes]
    · intro it hit
      exact absurd hit (by simp)
  · rw [if_neg h1]
    by_cases h2 : ((get_items_by_category db cat 2000).filter
        (fun item => item.id ∉ (u :: cur').map Item.id)).isEmpty = true
    · rw [if_pos h2]
      have hnil : (get_items_by_category db cat 2000).filter
          (fun item => item.id ∉ (u :: cur').map Item.id) = [] := by
        simpa using h2
      constructor
      · rw [hnil]
        simp [runOutcomes]
      · intro it hit
        exact absurd hit (by simp)
    · rw [if_neg h2]
      rcases select_best_loop_spec scorer timed_out now (u :: cur')
          (((get_items_by_category db cat 2000).filter
            (fun item => item.id ∉ (u :: cur').map Item.id)).take 100) cache none 0 with
        ⟨hall, hres⟩ | ⟨c, s, hmem, hres, hlt, hall⟩
      · constructor
        · rw [hres]
          exact iff_of_true rfl hall
        · intro it hit
          rw [hres] at hit
          exact absurd hit (by simp)
      · constructor
        · rw [hres]
          constructor
          · intro h; exact absurd h (by simp)
          · intro hforall
            exact absurd (hforall (c, some s) hmem s rfl) (not_le.mpr hlt)
        · intro it hit
          rw [hres] at hit
          obtain rfl : c = it := by simpa using hit
          exact ⟨s, hmem, hlt, hall⟩

/-- **C1 (witness).** `c1_selection_requires_positive_max` at the
fixture: selecting for `"pants"` next to seed 1 returns item 3, which
completed with average score 9/10, strictly positive and maximal among
the completed candidates. -/
theorem c1_selection_requires_positive_max_witness :
    ∃ s, ((⟨3, "pants", [3]⟩ : Item), some s) ∈
        runOutcomes wScorer noTimeout 0 [⟨1, "shirt", [1]⟩]
          (((get_items_by_category wDb "pants" 2000).filter
            (fun item => item.id ∉ ([⟨1, "shirt", [1]⟩] : List Item).map Item.id)).take 100)
          memCacheInit ∧
      0 < s ∧
      ∀ p ∈ runOutcomes wScorer noTimeout 0 [⟨1, "shirt", [1]⟩]
          (((get_items_by_category wDb "pants" 2000).filter
            (fun item => item.id ∉ ([⟨1, "shirt", [1]⟩] : List Item).map Item.id)).take 100)
          memCacheInit,
        ∀ t, p.2 = some t → t ≤ s :=
  (c1_selection_requires_positive_max wScorer noTimeout wDb memCacheInit 0
    ⟨1, "shirt", [1]⟩ [] "pants").2 ⟨3, "pants", [3]⟩ rfl

end OutfitModel
